import Mathlib

/-!
Verification of the NomadFlow workflow system against its specification.

The development shallowly embeds the relevant Rust functions of the
repository: the relay registration endpoint (nomadflow-relay/src/main.rs),
the shell runner (nomadflow-core/src/shell.rs), the git worktree
coordinator (nomadflow-core/src/services/git.rs), the tmux coordinator
(nomadflow-core/src/services/tmux.rs), and the HTTP server's auth
middleware and feature routes (nomadflow-server).  External effects
(filesystem, subprocesses, base64 decoding, randomness) are passed in as
explicit oracle values, so every definition is executable on concrete
inputs; the control flow and the data transformations are transcribed
from the source.
-/

namespace NomadFlow

/-! ## String helpers shared by several components -/

/-- Splitting of a character list at every occurrence of a separator,
with an accumulator for the current piece. -/
def splitCharAux (sep : Char) : List Char → List Char → List (List Char)
  | [], acc => [acc.reverse]
  | c :: rest, acc =>
    if c = sep then acc.reverse :: splitCharAux sep rest []
    else splitCharAux sep rest (c :: acc)

/-- Model of str split on a single separator character (an empty input
yields one empty piece, a trailing separator yields a trailing empty
piece, as in Rust). -/
def splitChar (sep : Char) (s : String) : List String :=
  (splitCharAux sep s.data []).map String.mk

/-- Model of str trim: drop whitespace from both ends. -/
def trimString (s : String) : String :=
  String.mk
    (((s.data.dropWhile Char.isWhitespace).reverse.dropWhile
      Char.isWhitespace).reverse)

/-- Model of str to_lowercase on the ASCII range. -/
def lowerString (s : String) : String :=
  String.mk (s.data.map Char.toLower)

/-- Model of str starts_with for a string pattern. -/
def strStartsWith (s pre : String) : Bool :=
  pre.data.isPrefixOf s.data

/-- Model of str ends_with for a string pattern. -/
def strEndsWith (s suf : String) : Bool :=
  suf.data.isSuffixOf s.data

/-- Model of dropping the first n characters of a string. -/
def strDrop (s : String) (n : Nat) : String :=
  String.mk (s.data.drop n)

/-- Joining of string pieces with a separator. -/
def joinWith (sep : String) : List String → String
  | [] => ""
  | [x] => x
  | x :: y :: xs => x ++ sep ++ joinWith sep (y :: xs)

/-- Model of Rust's str lines().next(): take the first line, where a line is
terminated by a newline, dropping a trailing carriage return. -/
def firstLine (s : String) : String :=
  let l := s.data.takeWhile (fun c => c ≠ '\n')
  String.mk (if l.getLast? = some '\r' then l.dropLast else l)

/-- Model of Rust's Path::file_name (as used on the repo paths of this
codebase): the last non-empty slash-separated segment, or the empty
string (unwrap_or_default) when there is none. -/
def pathFileName (p : String) : String :=
  match ((splitChar '/' p).filter (fun s => s ≠ "")).getLast? with
  | some s => s
  | none => ""

/-- Model of branch_name.rsplit('/').next().unwrap_or(branch_name): the
substring after the last slash (the whole string when there is no slash). -/
def lastSegment (s : String) : String :=
  match (splitChar '/' s).getLast? with
  | some t => t
  | none => s

/-! ## shell.rs -/

/-- Result type of shell.rs run_command. -/
structure CommandResult where
  stdout : String
  stderr : String
  return_code : Int
deriving DecidableEq, Repr

def CommandResult.success (r : CommandResult) : Bool :=
  r.return_code == 0

/-- Outcome of executing a subprocess, decided by the operating system:
the process completed (with an exit code, or none if killed by a signal),
spawning failed, or the tokio timeout fired first. -/
inductive ExecOutcome where
  | completed (stdout stderr : String) (code : Option Int)
  | spawnError (msg : String)
  | timedOut
deriving DecidableEq, Repr

/-- Embedding of shell.rs run_command: maps the execution outcome to the
CommandResult the Rust function builds, for a deadline of timeout_secs. -/
def run_command (timeout_secs : Nat) (outcome : ExecOutcome) : CommandResult :=
  match outcome with
  | .completed out err code => ⟨out, err, code.getD (-1)⟩
  | .spawnError e => ⟨"", "Failed to execute command: " ++ e, -1⟩
  | .timedOut =>
      ⟨"", "Command timed out after " ++ toString timeout_secs ++ "s", -1⟩

/-! ## error.rs -/

/-- The NomadError sum of error.rs. -/
inductive NomadError where
  | AlreadyExists (msg : String)
  | NotFound (msg : String)
  | CommandFailed (msg : String)
  | Timeout (secs : Nat)
  | Config (msg : String)
  | Io (msg : String)
  | Other (msg : String)
deriving DecidableEq, Repr

/-! ## Relay: nomadflow-relay/src/main.rs -/

/-- Tunnel map entry of the relay: backend port, last-used instant
(modelled as a Nat timestamp), owning client IP (modelled as a string). -/
structure TunnelEntry where
  bore_port : Nat
  last_used : Nat
  client_ip : String
deriving DecidableEq, Repr

/-- Association-list model of a DashMap. -/
def mapLookup {α : Type} (m : List (String × α)) (k : String) : Option α :=
  match m.find? (fun p => p.1 == k) with
  | some p => some p.2
  | none => none

/-- DashMap insert: replace the value at the key if present, else add. -/
def mapInsert {α : Type} (m : List (String × α)) (k : String) (v : α) :
    List (String × α) :=
  match m with
  | [] => [(k, v)]
  | p :: rest => if p.1 == k then (k, v) :: rest else p :: mapInsert rest k v

/-- Relay process state: tunnels map, per-IP rate-limit timestamps, and
the configured shared secret. -/
structure RelayState where
  tunnels : List (String × TunnelEntry)
  rate_limits : List (String × List Nat)
  relay_secret : String
deriving DecidableEq, Repr

def MAX_TUNNELS_PER_IP : Nat := 3

def MAX_REGISTRATIONS_PER_HOUR : Nat := 10

/-- Subdomain format validation of the register handler, transcribed from
the rejection condition (length below 3 or above 32, a character that is
neither ASCII alphanumeric nor a hyphen, or a leading or trailing hyphen). -/
def subdomain_valid (s : String) : Bool :=
  !(s.length < 3 || 32 < s.length
    || !(s.data.all (fun c => c.isAlphanum || c == '-'))
    || strStartsWith s "-" || strEndsWith s "-")

/-- Character table of generate_subdomain: draws below 10 give a digit,
draws 10 to 35 give a lowercase letter. -/
def subChar (idx : Nat) : Char :=
  if idx < 10 then Char.ofNat (48 + idx) else Char.ofNat (97 + (idx - 10))

/-- Embedding of generate_subdomain: six random draws (each produced by
random_range over 0..36, passed in as the oracle) mapped through the
character table. -/
def generate_subdomain (draws : Nat → Nat) : String :=
  String.mk ((List.range 6).map (fun i => subChar (draws i)))

/-- Embedding of the register handler.  Oracle inputs: the extracted
client IP, the current instant, and the subdomain the generator would
produce.  Returns the HTTP outcome (error status or the registered
subdomain) together with the relay state after the call. -/
def register (st : RelayState) (client_ip : String) (now : Nat)
    (genSub : String) (port : Nat) (secret : String)
    (subdomain : Option String) : Except Nat String × RelayState :=
  if port < 1024 then (.error 400, st)
  else if !st.relay_secret.isEmpty && secret != st.relay_secret then
    (.error 401, st)
  else
    let active_count :=
      (st.tunnels.filter (fun e => e.2.client_ip == client_ip)).length
    if MAX_TUNNELS_PER_IP ≤ active_count then (.error 429, st)
    else
      let old := (mapLookup st.rate_limits client_ip).getD []
      let retained := old.filter (fun ts => now - 3600 < ts)
      let st1 : RelayState :=
        { st with rate_limits := mapInsert st.rate_limits client_ip retained }
      if MAX_REGISTRATIONS_PER_HOUR ≤ retained.length then (.error 429, st1)
      else
        let st2 : RelayState :=
          { st1 with rate_limits :=
              mapInsert st1.rate_limits client_ip (retained ++ [now]) }
        match subdomain with
        | some preferred =>
          if !subdomain_valid preferred then (.error 400, st2)
          else
            match mapLookup st2.tunnels preferred with
            | some existing =>
              if existing.client_ip != client_ip then (.error 409, st2)
              else
                (.ok preferred,
                  { st2 with tunnels :=
                      mapInsert st2.tunnels preferred ⟨port, now, client_ip⟩ })
            | none =>
              (.ok preferred,
                { st2 with tunnels :=
                    mapInsert st2.tunnels preferred ⟨port, now, client_ip⟩ })
        | none =>
          (.ok genSub,
            { st2 with tunnels :=
                mapInsert st2.tunnels genSub ⟨port, now, client_ip⟩ })

/-! ## Git coordinator: nomadflow-core/src/services/git.rs -/

/-- Embedding of sanitize_name: keep alphanumerics and the characters
dot, underscore, hyphen; replace every other character with a hyphen. -/
def sanitize_name (name : String) : String :=
  String.mk (name.data.map (fun c =>
    if c.isAlphanum || c == '.' || c == '_' || c == '-' then c else '-'))

/-- Collision loop of derive_worktree_name: starting at suffix index i,
return the first candidate base-i that is not taken.  The Rust loop is
unbounded (for i in 2..); since the filesystem is finite, fuel one larger
than the number of existing directories always suffices, and the fallback
return of base mirrors the unreachable line after the Rust loop. -/
def freeSuffix (taken : String → Bool) (base : String) : Nat → Nat → String
  | 0, _ => base
  | fuel + 1, i =>
    let cand := base ++ "-" ++ toString i
    if taken cand then freeSuffix taken base fuel (i + 1) else cand

/-- Embedding of derive_worktree_name.  The worktrees directory is
modelled by the list of entry names that exist in it. -/
def derive_worktree_name (branch_name : String) (dirs : List String) :
    String :=
  let base := sanitize_name (lastSegment branch_name)
  if dirs.contains base then
    freeSuffix (fun s => dirs.contains s) base (dirs.length + 1) 2
  else base

/-- Base-branch resolution of create_feature: an explicitly supplied
non-empty base branch wins, otherwise the auto-detected default branch. -/
def resolve_base (defaultBranch : String) (base_branch : Option String) :
    String :=
  match base_branch with
  | some b => if !b.isEmpty then b else defaultBranch
  | none => defaultBranch

/-- Oracle environment for create_feature: the entries existing in the
repo's worktrees directory, the auto-detected default branch, and the
subprocess runner keyed by the exact command string (cwd is the repo
path throughout). -/
structure CreateEnv where
  dirs : List String
  defaultBranch : String
  run : String → CommandResult

/-- Embedding of GitService::create_feature.  The worktrees base
directory and the repo path are strings; the returned pair is
(worktree_path, branch). -/
def create_feature (env : CreateEnv) (worktreesDir repo_path
    branch_name : String) (base_branch : Option String) :
    Except NomadError (String × String) :=
  let repo_name := pathFileName repo_path
  let base := resolve_base env.defaultBranch base_branch
  let repoWtDir := worktreesDir ++ "/" ++ repo_name
  let wt_name := derive_worktree_name branch_name env.dirs
  let worktree_path := repoWtDir ++ "/" ++ wt_name
  if env.dirs.contains wt_name then
    .ok (worktree_path, branch_name)
  else
    let _fetch := env.run "git fetch --all 2>/dev/null || true"
    let r1 := env.run ("git worktree add -b \"" ++ branch_name ++ "\" \""
      ++ worktree_path ++ "\" \"" ++ base ++ "\"")
    if r1.success then .ok (worktree_path, branch_name)
    else
      let r2 := env.run ("git worktree add \"" ++ worktree_path ++ "\" \""
        ++ branch_name ++ "\"")
      if r2.success then .ok (worktree_path, branch_name)
      else
        let r3 := env.run ("git worktree add -b \"" ++ branch_name
          ++ "\" \"" ++ worktree_path ++ "\" \"origin/" ++ base ++ "\"")
        if r3.success then .ok (worktree_path, branch_name)
        else
          let r4 := env.run ("git worktree add -b \"" ++ branch_name
            ++ "\" \"" ++ worktree_path ++ "\" HEAD")
          if r4.success then .ok (worktree_path, branch_name)
          else
            .error (.CommandFailed
              ("Failed to create worktree: " ++ r4.stderr))

/-- Oracle environment for GitService::delete_feature: the subprocess
runner and the existence test run on the worktree path after a failed
forced removal. -/
structure DeleteEnv where
  run : String → CommandResult
  pathExists : String → Bool

/-- Embedding of GitService::delete_feature.  Besides the result, the
list of shell commands issued is returned so that effects are visible. -/
def delete_feature (env : DeleteEnv) (worktreesDir repo_path
    feature_name : String) : Except NomadError Bool × List String :=
  let repo_name := pathFileName repo_path
  let worktree_path := worktreesDir ++ "/" ++ repo_name ++ "/" ++ feature_name
  let removeCmd := "git worktree remove \"" ++ worktree_path ++ "\" --force"
  let result := env.run removeCmd
  let fallbackCmds : List String :=
    if result.success then []
    else if env.pathExists worktree_path then
      ["git worktree prune", "remove_dir_all " ++ worktree_path]
    else ["git worktree prune"]
  let branch_name := "feature/" ++ feature_name
  let branchCmd := "git branch -D \"" ++ branch_name ++ "\""
  (.ok true, [removeCmd] ++ fallbackCmds ++ [branchCmd])

/-- Model of Rust's Path::file_stem on a file name: the portion before
the final dot, except that a leading-dot name with no further dot is
returned whole. -/
def fileStem (name : String) : String :=
  let parts := splitChar '.' name
  if parts.length ≤ 1 then name
  else if strStartsWith name "." && parts.length == 2 then name
  else joinWith "." parts.dropLast

/-- Embedding of inject_token: rewrite an http(s) URL to carry an oauth2
token in its authority. -/
def inject_token (url token : String) : String :=
  if strStartsWith url "https://" then
    "https://oauth2:" ++ token ++ "@" ++ strDrop url 8
  else if strStartsWith url "http://" then
    "http://oauth2:" ++ token ++ "@" ++ strDrop url 7
  else url

/-- Repo-name derivation of clone_repo: an explicitly supplied non-empty
name wins; otherwise the file stem of the URL (trailing slashes trimmed),
failing when that stem is empty. -/
def clone_repo_name (url : String) (name : Option String) :
    Except NomadError String :=
  let fromUrl : Except NomadError String :=
    let path_part := String.mk (url.data.reverse.dropWhile
      (fun c => c = '/')).reverse
    let stem := fileStem (pathFileName path_part)
    if stem.isEmpty then
      .error (.Other "Cannot determine repository name from URL")
    else .ok stem
  match name with
  | some n => if !n.isEmpty then .ok n else fromUrl
  | none => fromUrl

/-- Oracle environment for clone_repo: whether the destination exists,
the outcome of the git clone subprocess, and the current branch the
freshly cloned repo reports. -/
structure CloneEnv where
  destExists : String → Bool
  cloneOutcome : ExecOutcome
  currentBranch : String

/-- Embedding of GitService::clone_repo.  The clone subprocess runs with
a 600 second deadline through run_command; a non-success result is
surfaced as CommandFailed. -/
def clone_repo (env : CloneEnv) (reposDir url : String)
    (token : Option String) (name : Option String) :
    Except NomadError (String × String × String) :=
  match clone_repo_name url name with
  | .error e => .error e
  | .ok raw =>
    let repo_name := sanitize_name raw
    let dest := reposDir ++ "/" ++ repo_name
    if env.destExists dest then
      .error (.AlreadyExists
        ("Repository '" ++ repo_name ++ "' already exists"))
    else
      let _clone_url := match token with
        | some tok => inject_token url tok
        | none => url
      let result := run_command 600 env.cloneOutcome
      if !result.success then
        .error (.CommandFailed ("git clone failed: " ++ result.stderr))
      else
        .ok (repo_name, dest, env.currentBranch)

/-! ## Tmux coordinator: nomadflow-core/src/services/tmux.rs -/

/-- Effects the tmux coordinator can issue against the multiplexer. -/
inductive TmuxAction where
  | createWindow (name : String) (dir : Option String)
  | sendKeys (window keys : String) (enter : Bool)
  | selectWindow (name : String)
  | killWindow (name : String)
deriving DecidableEq, Repr

/-- Oracle environment for the tmux coordinator: the names of the
windows the session currently has, the list-panes command result for a
window, the new-window command result, and whether select-window
succeeds. -/
structure TmuxEnv where
  windows : List String
  panesResult : String → CommandResult
  createResult : CommandResult
  selectOk : Bool

def window_exists (env : TmuxEnv) (name : String) : Bool :=
  env.windows.contains name

/-- Embedding of get_pane_command: on a successful list-panes call whose
trimmed output is non-empty, the first line of that output. -/
def get_pane_command (env : TmuxEnv) (window : String) : Option String :=
  let result := env.panesResult window
  if result.success then
    let cmd := trimString result.stdout
    if !cmd.isEmpty then some (firstLine cmd) else none
  else none

def IDLE_SHELLS : List String :=
  ["bash", "zsh", "sh", "fish", "dash", "ksh", "tcsh", "csh"]

/-- Embedding of is_shell_idle: no pane command counts as idle, otherwise
the lowercased command must be one of the known shells. -/
def is_shell_idle (env : TmuxEnv) (window : String) : Bool :=
  match get_pane_command env window with
  | none => true
  | some cmd => IDLE_SHELLS.contains (lowerString cmd)

/-- Embedding of ensure_window: create the window when missing and, when
a working directory was supplied, send a cd line to the new pane.
Returns the actions issued. -/
def ensure_window (env : TmuxEnv) (name : String)
    (working_dir : Option String) :
    Except NomadError (List TmuxAction) :=
  if window_exists env name then .ok []
  else if env.createResult.success then
    match working_dir with
    | some dir =>
      .ok [.createWindow name working_dir,
        .sendKeys name ("cd \"" ++ dir ++ "\"") true]
    | none => .ok [.createWindow name working_dir]
  else
    .error (.CommandFailed
      ("Failed to create tmux window: " ++ env.createResult.stderr))

/-- Embedding of switch_to_window.  Returns the pair
(switched, has_running_process) together with the actions issued. -/
def switch_to_window (env : TmuxEnv) (name : String)
    (working_dir : Option String) :
    Except NomadError ((Bool × Bool) × List TmuxAction) :=
  let window_existed := window_exists env name
  let has_running_process :=
    if window_existed then !is_shell_idle env name else false
  match ensure_window env name working_dir with
  | .error e => .error e
  | .ok acts0 =>
    let acts1 := acts0 ++ [.selectWindow name]
    if !env.selectOk then .ok ((false, has_running_process), acts1)
    else
      match working_dir with
      | some dir =>
        if !has_running_process then
          .ok ((true, has_running_process), acts1
            ++ [.sendKeys name ("cd \"" ++ dir ++ "\"") true,
                .sendKeys name "clear" true])
        else .ok ((true, has_running_process), acts1)
      | none => .ok ((true, has_running_process), acts1)

/-- Embedding of tmux.rs window_name: repo basename, a colon, and the
feature name. -/
def window_name (repo_path feature_name : String) : String :=
  pathFileName repo_path ++ ":" ++ feature_name

/-! ## Server auth middleware: nomadflow-server/src/auth.rs -/

/-- Model of str split_once(':'): split at the first colon. -/
def splitOnceAux : List Char → Option (List Char × List Char)
  | [] => none
  | c :: rest =>
    if c = ':' then some ([], rest)
    else
      match splitOnceAux rest with
      | some (a, b) => some (c :: a, b)
      | none => none

def splitOnceColon (s : String) : Option (String × String) :=
  match splitOnceAux s.data with
  | some (a, b) => some (String.mk a, String.mk b)
  | none => none

/-- Acceptance test of the auth middleware, given the configured secret
and the value of the Authorization header.  Base64 decoding (an external
crate, combined here with the utf8 check) is passed in as an oracle. -/
def auth_accepts (decode : String → Option String) (secret : String)
    (authHeader : Option String) : Bool :=
  match authHeader with
  | some h =>
    if ("Bearer ".data).isPrefixOf h.data then
      h.data.drop 7 == secret.data
    else if ("Basic ".data).isPrefixOf h.data then
      match decode (String.mk (h.data.drop 6)) with
      | some decoded =>
        match splitOnceColon decoded with
        | some (_, pw) => pw.data == secret.data
        | none => false
      | none => false
    else false
  | none => false

/-- Result of the auth middleware: pass the request through, or reject
with 401 and the given WWW-Authenticate header value. -/
inductive AuthResult where
  | pass
  | reject401 (wwwAuthenticate : String)
deriving DecidableEq, Repr

/-- Embedding of auth_middleware: no secret configured means no auth;
otherwise accept Bearer or Basic credentials, else 401. -/
def auth_middleware (decode : String → Option String) (secret : String)
    (authHeader : Option String) : AuthResult :=
  if secret.isEmpty then .pass
  else if auth_accepts decode secret authHeader then .pass
  else .reject401 "Basic realm=\"NomadFlow\""

/-- Routes mounted behind the auth middleware in build_router (the repos,
features and terminal HTTP-proxy routers). -/
def protected_routes : List String :=
  ["/api/list-repos", "/api/clone-repo",
   "/api/list-features", "/api/create-feature", "/api/delete-feature",
   "/api/switch-feature", "/api/list-branches", "/api/attach-branch",
   "/terminal", "/terminal/*path"]

/-- Routes mounted without the middleware (the health router and the
WebSocket router, which authenticates via a query token instead). -/
def public_routes : List String :=
  ["/health", "/terminal/ws"]

def route_requires_auth (path : String) : Bool :=
  protected_routes.contains path

/-! ## Server feature routes: nomadflow-server/src/routes/features.rs -/

/-- Worktree (feature) record of models.rs. -/
structure Feature where
  name : String
  worktree_path : String
  branch : String
  is_active : Bool
  is_main : Bool
deriving DecidableEq, Repr

/-- Side effects of the delete-feature route handler. -/
inductive ServerAction where
  | killWindow (name : String)
  | gitDeleteFeature (repoPath featureName : String)
deriving DecidableEq, Repr

/-- Display messages of NomadError, as produced by its thiserror derive. -/
def NomadError.toMessage : NomadError → String
  | .AlreadyExists m => "Already exists: " ++ m
  | .NotFound m => "Not found: " ++ m
  | .CommandFailed m => "Command failed: " ++ m
  | .Timeout s => "Command timed out after " ++ toString s ++ "s"
  | .Config m => "Configuration error: " ++ m
  | .Io m => "IO error: " ++ m
  | .Other m => m

/-- Tail of the delete_feature route once the main-worktree guard has
passed: kill the tmux window, call the coordinator, surface its result. -/
def routeDeleteProceed (deleteResult : Except NomadError Bool)
    (repoPath featureName : String) :
    Except (Nat × String) Bool × List ServerAction :=
  let acts : List ServerAction :=
    [.killWindow (window_name repoPath featureName),
     .gitDeleteFeature repoPath featureName]
  match deleteResult with
  | .error e => (.error (500, e.toMessage), acts)
  | .ok deleted => (.ok deleted, acts)

/-- Embedding of the delete_feature route handler.  The coordinator's
list_features result is an oracle input; the handler result is either an
error status with its detail body or the deleted flag, paired with the
effects performed. -/
def route_delete_feature (features : Except NomadError (List Feature))
    (deleteResult : Except NomadError Bool)
    (repoPath featureName : String) :
    Except (Nat × String) Bool × List ServerAction :=
  match features with
  | .error e => (.error (500, e.toMessage), [])
  | .ok fs =>
    match fs.find? (fun f => f.name == featureName) with
    | some f =>
      if f.is_main then
        (.error (400, "Cannot delete the main repository branch"), [])
      else
        routeDeleteProceed deleteResult repoPath featureName
    | none => routeDeleteProceed deleteResult repoPath featureName

/-- Request body of POST /api/create-feature (models.rs
CreateFeatureRequest). -/
structure CreateFeatureRequest where
  repo_path : String
  branch_name : String
  base_branch : String
deriving DecidableEq, Repr

/-- Serde default for the baseBranch field. -/
def default_base_branch : String := "main"

/-- Deserialization of CreateFeatureRequest: an omitted baseBranch field
takes the serde default. -/
def parse_create_feature_request (repoPath branchName : String)
    (baseBranch : Option String) : CreateFeatureRequest :=
  ⟨repoPath, branchName, baseBranch.getD default_base_branch⟩

/-- Base-branch argument the create_feature route passes to the
coordinator: the literal "main" is mapped to none. -/
def route_base_branch (req : CreateFeatureRequest) : Option String :=
  if req.base_branch == "main" then none else some req.base_branch

/-! ## General lemmas about the map model -/

/-- Looking up the key just inserted yields the inserted value. -/
theorem mapLookup_mapInsert_self {α : Type} (m : List (String × α))
    (k : String) (v : α) : mapLookup (mapInsert m k v) k = some v := by
  induction m with
  | nil => simp [mapInsert, mapLookup, List.find?]
  | cons p t ih =>
    by_cases hp : (p.1 == k) = true
    · simp [mapInsert, mapLookup, List.find?, hp]
    · rw [Bool.not_eq_true] at hp
      simp only [mapInsert, hp, Bool.false_eq_true, if_false]
      unfold mapLookup at ih ⊢
      simp [List.find?, hp, ih]

/-! ## Claim C2 -/

/-- Counterexample to claim C2: the register handler accepts the
subdomain "Abc-123" (the validation admits ASCII uppercase letters), so
a subdomain containing an uppercase letter is not rejected with 400. -/
theorem register_uppercase_subdomain_accepted :
    (register ⟨[], [], ""⟩ "203.0.113.7" 5000 "gen123" 8080 ""
      (some "Abc-123")).1 = .ok "Abc-123" := rfl

/-- Claim C2, amended: relay registration validates a requested
subdomain as 3 to 32 characters of ASCII letters (either case), digits
and hyphens with no leading or trailing hyphen: length 2 is rejected
with 400, length 33 is rejected, leading or trailing hyphens are
rejected, and both "abc-123" and "Abc-123" are accepted. -/
theorem register_subdomain_boundaries :
    (register ⟨[], [], ""⟩ "203.0.113.7" 5000 "gen123" 8080 ""
      (some "ab")).1 = .error 400
    ∧ (register ⟨[], [], ""⟩ "203.0.113.7" 5000 "gen123" 8080 ""
      (some "abc")).1 = .ok "abc"
    ∧ (register ⟨[], [], ""⟩ "203.0.113.7" 5000 "gen123" 8080 ""
      (some "aaaaaaaaaaaaaaaaaaaaaaaaaaaaaaaaa")).1 = .error 400
    ∧ (register ⟨[], [], ""⟩ "203.0.113.7" 5000 "gen123" 8080 ""
      (some "-abc")).1 = .error 400
    ∧ (register ⟨[], [], ""⟩ "203.0.113.7" 5000 "gen123" 8080 ""
      (some "abc-")).1 = .error 400
    ∧ (register ⟨[], [], ""⟩ "203.0.113.7" 5000 "gen123" 8080 ""
      (some "abc-123")).1 = .ok "abc-123"
    ∧ (register ⟨[], [], ""⟩ "203.0.113.7" 5000 "gen123" 8080 ""
      (some "Abc-123")).1 = .ok "Abc-123" :=
  ⟨rfl, rfl, rfl, rfl, rfl, rfl, rfl⟩

/-! ## Claim C3 -/

/-- Counterexample to claim C3: a registration rejected for a malformed
subdomain (here "ab", status 400) nevertheless appends the timestamp to
the requesting IP's rate-limit list. -/
theorem register_malformed_subdomain_still_counted :
    (register ⟨[], [], ""⟩ "203.0.113.7" 5000 "gen123" 8080 ""
      (some "ab")).1 = .error 400
    ∧ (register ⟨[], [], ""⟩ "203.0.113.7" 5000 "gen123" 8080 ""
      (some "ab")).2.rate_limits = [("203.0.113.7", [5000])] :=
  ⟨rfl, rfl⟩

/-- Claim C3, amended: the registration timestamp is appended as soon as
the privileged-port, secret, active-tunnel and hourly-cap checks pass,
before subdomain validation: whatever then happens in the subdomain
branch (400, 409 or success), the IP's rate-limit list ends as the
timestamps of the last hour with the current instant appended. -/
theorem register_timestamp_after_quota_checks (st : RelayState)
    (ip : String) (now : Nat) (g : String) (port : Nat) (secret : String)
    (sub : Option String)
    (hport : ¬ port < 1024)
    (hsecret : (!st.relay_secret.isEmpty && secret != st.relay_secret)
      = false)
    (hactive : ¬ MAX_TUNNELS_PER_IP ≤
      (st.tunnels.filter (fun e => e.2.client_ip == ip)).length)
    (hhour : ¬ MAX_REGISTRATIONS_PER_HOUR ≤
      (((mapLookup st.rate_limits ip).getD []).filter
        (fun ts => now - 3600 < ts)).length) :
    mapLookup ((register st ip now g port secret sub).2).rate_limits ip
      = some ((((mapLookup st.rate_limits ip).getD []).filter
          (fun ts => now - 3600 < ts)) ++ [now]) := by
  unfold register
  rw [if_neg hport, if_neg (by simp [hsecret]), if_neg hactive,
    if_neg hhour]
  cases sub with
  | none => exact mapLookup_mapInsert_self _ _ _
  | some preferred =>
    by_cases hv : subdomain_valid preferred = true
    · simp only [hv, Bool.not_true, Bool.false_eq_true, if_false]
      cases hm : mapLookup st.tunnels preferred with
      | none =>
        simp only [hm]
        exact mapLookup_mapInsert_self _ _ _
      | some existing =>
        simp only [hm]
        by_cases ho : (existing.client_ip != ip) = true
        · simp only [ho, if_true]
          exact mapLookup_mapInsert_self _ _ _
        · rw [Bool.not_eq_true] at ho
          simp only [ho, Bool.false_eq_true, if_false]
          exact mapLookup_mapInsert_self _ _ _
    · rw [Bool.not_eq_true] at hv
      simp only [hv, Bool.not_false, if_true]
      exact mapLookup_mapInsert_self _ _ _

/-- Witness for register_timestamp_after_quota_checks at a concrete
rejected request. -/
theorem register_timestamp_after_quota_checks_witness :
    mapLookup ((register ⟨[], [], ""⟩ "203.0.113.7" 5000 "gen123" 8080 ""
      (some "ab")).2).rate_limits "203.0.113.7" = some [5000] := by
  have h := register_timestamp_after_quota_checks ⟨[], [], ""⟩
    "203.0.113.7" 5000 "gen123" 8080 "" (some "ab")
    (by decide) rfl (by decide) (by decide)
  simpa using h

/-! ## Claim C4 -/

/-- Counterexample to claim C4: a git clone that exceeds its 600 second
deadline is surfaced by clone_repo as CommandFailed, not as the error
kind Timeout: the Timeout variant is never produced by the codebase. -/
theorem clone_timeout_not_timeout_error :
    clone_repo ⟨fun _ => false, .timedOut, "main"⟩ "/b/repos"
      "https://github.com/u/repo.git" none none
      = .error (.CommandFailed
          "git clone failed: Command timed out after 600s")
    ∧ clone_repo ⟨fun _ => false, .timedOut, "main"⟩ "/b/repos"
      "https://github.com/u/repo.git" none none
      ≠ .error (.Timeout 600) :=
  ⟨rfl, fun h => NomadError.noConfusion (Except.error.inj h)⟩

/-- Claim C4, amended: a subprocess invocation that exceeds its deadline
of t seconds yields a CommandResult with return code -1 and the stderr
text "Command timed out after ts"; no NomadError::Timeout value is
built — the timed-out clone above surfaces as CommandFailed. -/
theorem run_command_timeout_minus_one (t : Nat) :
    run_command t .timedOut
      = ⟨"", "Command timed out after " ++ toString t ++ "s", -1⟩ := rfl

/-- Witness for run_command_timeout_minus_one at the clone deadline. -/
theorem run_command_timeout_minus_one_witness :
    run_command 600 .timedOut
      = ⟨"", "Command timed out after 600s", -1⟩ :=
  run_command_timeout_minus_one 600

/-! ## Claim C8 -/

/-- Claim C8: the coordinator's delete_feature returns Ok true for every
oracle environment — whether the forced worktree removal succeeds, or
the prune-and-remove fallback runs, or nothing with the given name
exists; no code path returns an error. -/
theorem delete_feature_always_ok_true (env : DeleteEnv)
    (worktreesDir repo_path feature_name : String) :
    (delete_feature env worktreesDir repo_path feature_name).1
      = .ok true := rfl

/-- Witness for delete_feature_always_ok_true on the fallback path: the
forced removal fails and the directory still exists. -/
theorem delete_feature_always_ok_true_witness :
    (delete_feature ⟨fun _ => ⟨"", "fatal: not a worktree", 128⟩,
      fun _ => true⟩ "/b/worktrees" "/b/repos/demo" "login").1
      = .ok true :=
  delete_feature_always_ok_true _ _ _ _

/-! ## Claim C9 -/

/-- Claim C9: a generated subdomain is six lowercase-alphanumeric
characters, and when no subdomain is requested the relay inserts the
tunnel entry for the generated name without the already-taken check: a
collision with an entry owned by a different IP overwrites that entry. -/
theorem register_generated_subdomain_unchecked :
    (∀ draws : Nat → Nat, (∀ i, i < 6 → draws i < 36) →
      (generate_subdomain draws).length = 6
      ∧ ∀ c ∈ (generate_subdomain draws).data,
          (c.isDigit || c.isLower) = true)
    ∧ (register ⟨[("abc123", ⟨5000, 100, "198.51.100.9"⟩)], [], ""⟩
        "203.0.113.7" 7000 "abc123" 8080 "" none).1 = .ok "abc123"
    ∧ mapLookup ((register
        ⟨[("abc123", ⟨5000, 100, "198.51.100.9"⟩)], [], ""⟩
        "203.0.113.7" 7000 "abc123" 8080 "" none).2).tunnels "abc123"
      = some ⟨8080, 7000, "203.0.113.7"⟩ := by
  refine ⟨?_, rfl, rfl⟩
  intro draws hd
  refine ⟨rfl, ?_⟩
  intro c hc
  simp only [generate_subdomain, List.mem_map, List.mem_range] at hc
  rcases hc with ⟨i, hi, rfl⟩
  have h36 := hd i hi
  revert h36
  generalize draws i = d
  revert d
  decide

/-- Witness for register_generated_subdomain_unchecked on concrete
draws. -/
theorem register_generated_subdomain_unchecked_witness :
    (generate_subdomain (fun i => i)).length = 6
    ∧ ∀ c ∈ (generate_subdomain (fun i => i)).data,
        (c.isDigit || c.isLower) = true :=
  register_generated_subdomain_unchecked.1 (fun i => i) (by decide)

/-! ## Claim C10 -/

/-- Claim C10: a create-feature request whose baseBranch is the literal
"main" — which is also the serde default when the field is omitted — is
passed to the coordinator with no base branch, and the coordinator then
resolves the base to the auto-detected default branch. -/
theorem create_feature_main_base_uses_default (repoPath
    branchName : String) (field : Option String)
    (h : field = none ∨ field = some "main") :
    route_base_branch
      (parse_create_feature_request repoPath branchName field) = none
    ∧ ∀ d : String, resolve_base d none = d := by
  refine ⟨?_, fun d => rfl⟩
  rcases h with h | h <;> subst h <;> rfl

/-- Witness for create_feature_main_base_uses_default at an explicit
"main" field. -/
theorem create_feature_main_base_uses_default_witness :
    route_base_branch (parse_create_feature_request "/b/repos/demo"
      "feature/login" (some "main")) = none :=
  (create_feature_main_base_uses_default "/b/repos/demo" "feature/login"
    (some "main") (Or.inr rfl)).1

/-! ## Claim C1 -/

/-- Shape of every create_feature result: either success with the
derived worktree path and the requested branch, or CommandFailed. -/
theorem create_feature_shape (env : CreateEnv) (wtd rp bn : String)
    (bb : Option String) :
    create_feature env wtd rp bn bb
      = .ok (wtd ++ "/" ++ pathFileName rp ++ "/"
          ++ derive_worktree_name bn env.dirs, bn)
    ∨ ∃ msg, create_feature env wtd rp bn bb
        = .error (.CommandFailed msg) := by
  unfold create_feature
  dsimp only
  split_ifs with h0 h1 h2 h3 h4
  · exact Or.inl rfl
  · exact Or.inl rfl
  · exact Or.inl rfl
  · exact Or.inl rfl
  · exact Or.inl rfl
  · exact Or.inr ⟨_, rfl⟩

/-- Claim C1 (divergence): a first create_feature call for branch
feature/login creates the worktree directory "login"; once that
directory exists, a repeated call with the same arguments derives the
fresh name "login-2" — derive_worktree_name steps around the existing
directory, so the early return that would make the call idempotent
never fires — and hence cannot return the first call's worktree path,
whatever the git subprocesses answer. -/
theorem create_feature_repeat_diverges :
    create_feature ⟨[], "main", fun _ => ⟨"", "", 0⟩⟩ "/b/worktrees"
      "/b/repos/demo" "feature/login" none
      = .ok ("/b/worktrees/demo/login", "feature/login")
    ∧ ∀ run : String → CommandResult,
      create_feature ⟨["login"], "main", run⟩ "/b/worktrees"
        "/b/repos/demo" "feature/login" none
        ≠ .ok ("/b/worktrees/demo/login", "feature/login") := by
  refine ⟨rfl, ?_⟩
  intro run h
  rcases create_feature_shape ⟨["login"], "main", run⟩ "/b/worktrees"
    "/b/repos/demo" "feature/login" none with h1 | ⟨msg, h2⟩
  · rw [h] at h1
    have heq := congrArg Prod.fst (Except.ok.inj h1)
    have hne : "/b/worktrees/demo/login" ≠ "/b/worktrees" ++ "/"
        ++ pathFileName "/b/repos/demo" ++ "/"
        ++ derive_worktree_name "feature/login" ["login"] := by decide
    exact hne heq
  · rw [h] at h2
    exact Except.noConfusion h2

/-- Witness for create_feature_repeat_diverges with an all-succeeding
subprocess oracle. -/
theorem create_feature_repeat_diverges_witness :
    create_feature ⟨["login"], "main", fun _ => ⟨"", "", 0⟩⟩
      "/b/worktrees" "/b/repos/demo" "feature/login" none
      ≠ .ok ("/b/worktrees/demo/login", "feature/login") :=
  create_feature_repeat_diverges.2 (fun _ => ⟨"", "", 0⟩)

/-! ## Claim C7 -/

/-- Claim C7: when the named feature is the main worktree (under the
data-model invariant that worktree names are unique within a repo,
expressed here as: every feature carrying the requested name is main),
the delete-feature route answers 400 with the fixed detail message and
performs no effect: no window kill and no coordinator delete. -/
theorem delete_feature_route_protects_main (fs : List Feature)
    (del : Except NomadError Bool) (repoPath featureName : String)
    (hmem : ∃ f, f ∈ fs ∧ f.name = featureName ∧ f.is_main = true)
    (hall : ∀ f, f ∈ fs → f.name = featureName → f.is_main = true) :
    route_delete_feature (.ok fs) del repoPath featureName
      = (.error (400, "Cannot delete the main repository branch"), []) := by
  unfold route_delete_feature
  cases hfind : fs.find? (fun f => f.name == featureName) with
  | none =>
    rcases hmem with ⟨f, hf, hn, _⟩
    have hnone := List.find?_eq_none.mp hfind f hf
    simp [hn] at hnone
  | some f =>
    have hp := List.find?_some hfind
    have hfmem : f ∈ fs := List.mem_of_find?_eq_some hfind
    have hmain : f.is_main = true := hall f hfmem (by simpa using hp)
    simp [hfind, hmain]

/-- Witness for delete_feature_route_protects_main on a one-feature
repository whose only worktree is the main one. -/
theorem delete_feature_route_protects_main_witness :
    route_delete_feature
      (.ok [⟨"main", "/b/repos/demo", "main", false, true⟩])
      (.ok true) "/b/repos/demo" "main"
      = (.error (400, "Cannot delete the main repository branch"), []) :=
  delete_feature_route_protects_main _ _ _ _
    ⟨⟨"main", "/b/repos/demo", "main", false, true⟩, by simp, rfl, rfl⟩
    (by intro f hf _; simp at hf; subst hf; rfl)

/-! ## Claim C5 -/

/-- Data of a string append is the append of the data. -/
theorem str_data_append (a b : String) : (a ++ b).data = a.data ++ b.data :=
  rfl

/-- The Bearer scheme prefix is a prefix of every Bearer header. -/
theorem bearer_prefix_self (s : String) :
    ("Bearer ".data).isPrefixOf ("Bearer " ++ s).data = true := by
  rw [List.isPrefixOf_iff_prefix]
  exact ⟨s.data, rfl⟩

/-- The Basic scheme prefix is a prefix of every Basic header. -/
theorem basic_prefix_self (s : String) :
    ("Basic ".data).isPrefixOf ("Basic " ++ s).data = true := by
  rw [List.isPrefixOf_iff_prefix]
  exact ⟨s.data, rfl⟩

/-- A Basic header never carries the Bearer prefix. -/
theorem basic_not_bearer (s : String) :
    ("Bearer ".data).isPrefixOf ("Basic " ++ s).data = false := by
  show List.isPrefixOf ['B', 'e', 'a', 'r', 'e', 'r', ' ']
    ('B' :: 'a' :: 's' :: 'i' :: 'c' :: ' ' :: s.data) = false
  simp only [List.isPrefixOf]
  rw [show (('e' : Char) == 'a') = false from rfl]
  simp

/-- Splitting a colon-free piece glued to a colon and a tail recovers
both parts. -/
theorem splitOnceAux_append (a b : List Char) (h : ':' ∉ a) :
    splitOnceAux (a ++ ':' :: b) = some (a, b) := by
  induction a with
  | nil => simp [splitOnceAux]
  | cons c cs ih =>
    have hc : ¬ c = ':' := by
      intro hh
      exact h (hh ▸ List.mem_cons_self c cs)
    have hcs : ':' ∉ cs := fun hm => h (List.mem_cons_of_mem c hm)
    simp [splitOnceAux, hc, ih hcs]

/-- Inversion of splitOnceAux: a successful split decomposes the input
at its first colon. -/
theorem splitOnceAux_spec : ∀ (l a b : List Char),
    splitOnceAux l = some (a, b) → l = a ++ ':' :: b ∧ ':' ∉ a := by
  intro l
  induction l with
  | nil => intro a b h; cases h
  | cons c rest ih =>
    intro a b h
    unfold splitOnceAux at h
    by_cases hc : c = ':'
    · rw [if_pos hc] at h
      obtain ⟨ha, hb⟩ := Prod.mk.injEq _ _ _ _ ▸ Option.some.inj h
      subst ha
      subst hb
      subst hc
      exact ⟨rfl, by simp⟩
    · rw [if_neg hc] at h
      cases hrec : splitOnceAux rest with
      | none => rw [hrec] at h; cases h
      | some p =>
        obtain ⟨a0, b0⟩ := p
        rw [hrec] at h
        obtain ⟨ha, hb⟩ := Prod.mk.injEq _ _ _ _ ▸ Option.some.inj h
        obtain ⟨hl, hnotin⟩ := ih a0 b0 hrec
        subst hb
        rw [← ha, hl]
        refine ⟨rfl, ?_⟩
        intro hm
        rcases List.mem_cons.mp hm with hm | hm
        · exact hc hm.symm
        · exact hnotin hm

/-- Splitting the concatenation of a colon-free user, a colon and a
password recovers the pair. -/
theorem splitOnceColon_append (u w : String) (h : ':' ∉ u.data) :
    splitOnceColon (u ++ ":" ++ w) = some (u, w) := by
  unfold splitOnceColon
  have hdata : (u ++ ":" ++ w).data = u.data ++ ':' :: w.data := by
    show (u.data ++ [':']) ++ w.data = u.data ++ ':' :: w.data
    simp
  rw [hdata, splitOnceAux_append u.data w.data h]

/-- Inversion of splitOnceColon at the string level. -/
theorem splitOnceColon_spec (s u w : String)
    (h : splitOnceColon s = some (u, w)) :
    s.data = u.data ++ ':' :: w.data ∧ ':' ∉ u.data := by
  unfold splitOnceColon at h
  cases haux : splitOnceAux s.data with
  | none => rw [haux] at h; cases h
  | some p =>
    obtain ⟨a, b⟩ := p
    rw [haux] at h
    obtain ⟨ha, hb⟩ := Prod.mk.injEq _ _ _ _ ▸ Option.some.inj h
    obtain ⟨hl, hnotin⟩ := splitOnceAux_spec s.data a b haux
    rw [← ha, ← hb]
    exact ⟨hl, hnotin⟩

/-- Acceptance condition of the specification, stated in its words: the
request presents either a Bearer header carrying exactly the secret, or
a Basic header whose decoded credential has the secret as password. -/
def spec_accepts (decode : String → Option String) (secret : String)
    (hdr : Option String) : Prop :=
  hdr = some ("Bearer " ++ secret)
  ∨ ∃ b64 user pw, hdr = some ("Basic " ++ b64)
      ∧ decode b64 = some (user ++ ":" ++ pw)
      ∧ ':' ∉ user.data
      ∧ pw = secret

/-- The middleware's acceptance test agrees with the specification's
acceptance condition. -/
theorem auth_accepts_iff (decode : String → Option String)
    (secret : String) (hdr : Option String) :
    auth_accepts decode secret hdr = true ↔
      spec_accepts decode secret hdr := by
  cases hdr with
  | none => simp [auth_accepts, spec_accepts]
  | some h =>
    unfold auth_accepts spec_accepts
    by_cases hb : ("Bearer ".data).isPrefixOf h.data = true
    · simp only [hb, if_true]
      obtain ⟨t, ht⟩ := List.isPrefixOf_iff_prefix.mp hb
      have hdrop : h.data.drop 7 = t := by
        rw [← ht]
        exact List.drop_left' rfl
      constructor
      · intro hacc
        left
        have hts : t = secret.data := hdrop ▸ eq_of_beq hacc
        refine congrArg some (String.ext ?_)
        rw [← ht, hts]
        rfl
      · intro hs
        rcases hs with hs | ⟨b64, _, _, hsome, _, _, _⟩
        · have hh : h = "Bearer " ++ secret := Option.some.inj hs
          subst hh
          rw [show ("Bearer " ++ secret).data.drop 7 = secret.data from
            List.drop_left' rfl]
          exact beq_self_eq_true _
        · have hh : h = "Basic " ++ b64 := Option.some.inj hsome
          rw [hh, basic_not_bearer] at hb
          cases hb
    · rw [Bool.not_eq_true] at hb
      simp only [hb, Bool.false_eq_true, if_false]
      by_cases hb2 : ("Basic ".data).isPrefixOf h.data = true
      · simp only [hb2, if_true]
        obtain ⟨t, ht⟩ := List.isPrefixOf_iff_prefix.mp hb2
        have hdrop : h.data.drop 6 = t := by
          rw [← ht]
          exact List.drop_left' rfl
        rw [hdrop]
        constructor
        · intro hacc
          cases hdec : decode (String.mk t) with
          | none => simp [hdec] at hacc
          | some decoded =>
            simp only [hdec] at hacc
            cases hsp : splitOnceColon decoded with
            | none => simp [hsp] at hacc
            | some p =>
              obtain ⟨user, pw⟩ := p
              simp only [hsp] at hacc
              right
              obtain ⟨hdeq, hnocol⟩ := splitOnceColon_spec decoded user pw hsp
              refine ⟨String.mk t, user, pw, ?_, ?_, hnocol, ?_⟩
              · refine congrArg some (String.ext ?_)
                rw [← ht]
                rfl
              · rw [hdec]
                refine congrArg some (String.ext ?_)
                rw [hdeq]
                show user.data ++ ':' :: pw.data
                  = (user.data ++ [':']) ++ pw.data
                simp
              · exact String.ext (eq_of_beq hacc)
        · intro hs
          rcases hs with hs | ⟨b64, user, pw, hsome, hdec, hcol, hpw⟩
          · have hh : h = "Bearer " ++ secret := Option.some.inj hs
            rw [hh, bearer_prefix_self] at hb
            cases hb
          · have hh : h = "Basic " ++ b64 := Option.some.inj hsome
            have hteq : String.mk t = b64 := by
              have hdata : "Basic ".data ++ b64.data
                  = "Basic ".data ++ t := by
                rw [show "Basic ".data ++ b64.data
                  = ("Basic " ++ b64).data from rfl, ← hh, ← ht]
              exact String.ext (List.append_cancel_left hdata).symm
            rw [hteq, hdec, hpw]
            simp [splitOnceColon_append user secret hcol]
      · rw [Bool.not_eq_true] at hb2
        simp only [hb2, Bool.false_eq_true, if_false]
        constructor
        · intro hf; cases hf
        · intro hs
          rcases hs with hs | ⟨b64, _, _, hsome, _, _, _⟩
          · have hh : h = "Bearer " ++ secret := Option.some.inj hs
            rw [hh, bearer_prefix_self] at hb
            cases hb
          · have hh : h = "Basic " ++ b64 := Option.some.inj hsome
            rw [hh, basic_prefix_self] at hb2
            cases hb2

/-- Claim C5: with a non-empty secret, the middleware passes a request
exactly when it presents Bearer with the secret or Basic credentials
whose password equals the secret, and rejects every other request with
401 carrying WWW-Authenticate Basic realm NomadFlow; the health route is
mounted outside the middleware while every API route is inside it. -/
theorem auth_api_secret_enforcement (decode : String → Option String)
    (secret : String) (hsec : secret ≠ "") (hdr : Option String) :
    (auth_middleware decode secret hdr = .pass ↔
      spec_accepts decode secret hdr)
    ∧ (¬ spec_accepts decode secret hdr →
        auth_middleware decode secret hdr
          = .reject401 "Basic realm=\"NomadFlow\"")
    ∧ route_requires_auth "/health" = false
    ∧ (∀ p ∈ protected_routes, route_requires_auth p = true) := by
  have hne : secret.isEmpty = false := by
    rw [Bool.eq_false_iff]
    intro hh
    exact hsec ((String.isEmpty_iff secret).mp hh)
  refine ⟨?_, ?_, by decide, by decide⟩
  · unfold auth_middleware
    rw [hne]
    simp only [Bool.false_eq_true, if_false]
    by_cases ha : auth_accepts decode secret hdr = true
    · simp only [ha, if_true, true_iff]
      exact (auth_accepts_iff decode secret hdr).mp ha
    · rw [Bool.not_eq_true] at ha
      simp only [ha, Bool.false_eq_true, if_false]
      constructor
      · intro hf; cases hf
      · intro hs
        rw [← auth_accepts_iff decode secret hdr] at hs
        rw [ha] at hs
        cases hs
  · intro hns
    unfold auth_middleware
    rw [hne]
    simp only [Bool.false_eq_true, if_false]
    have ha : auth_accepts decode secret hdr = false := by
      rw [Bool.eq_false_iff]
      intro hh
      exact hns ((auth_accepts_iff decode secret hdr).mp hh)
    rw [ha]
    simp

/-- Base64 decode oracle that rejects every input (the Bearer path does
not consult it). -/
def decodeNone : String → Option String := fun _ => none

/-- Witness for auth_api_secret_enforcement: the documented secret and
header of the specification's auth scenario. -/
theorem auth_api_secret_enforcement_witness :
    auth_middleware decodeNone "s3cret" (some "Bearer s3cret") = .pass
    ∧ route_requires_auth "/api/list-repos" = true :=
  ⟨(auth_api_secret_enforcement decodeNone "s3cret" (by decide)
      (some "Bearer s3cret")).1.mpr (Or.inl rfl),
   (auth_api_secret_enforcement decodeNone "s3cret" (by decide)
      (some "Bearer s3cret")).2.2.2 "/api/list-repos" (by decide)⟩

/-! ## Claim C6 -/

/-- Closed form of switch_to_window for a supplied working directory,
by cases over the four oracle booleans. -/
theorem switch_to_window_eq (env : TmuxEnv) (name dir : String) :
    switch_to_window env name (some dir) =
      (if window_exists env name then
        (if env.selectOk then
          (if is_shell_idle env name then
            .ok ((true, false),
              [.selectWindow name,
               .sendKeys name ("cd \"" ++ dir ++ "\"") true,
               .sendKeys name "clear" true])
          else .ok ((true, true), [.selectWindow name]))
        else .ok ((false, !is_shell_idle env name), [.selectWindow name]))
      else
        (if env.createResult.success then
          (if env.selectOk then
            .ok ((true, false),
              [.createWindow name (some dir),
               .sendKeys name ("cd \"" ++ dir ++ "\"") true,
               .selectWindow name,
               .sendKeys name ("cd \"" ++ dir ++ "\"") true,
               .sendKeys name "clear" true])
          else .ok ((false, false),
              [.createWindow name (some dir),
               .sendKeys name ("cd \"" ++ dir ++ "\"") true,
               .selectWindow name]))
        else .error (.CommandFailed
          ("Failed to create tmux window: "
            ++ env.createResult.stderr)))) := by
  unfold switch_to_window ensure_window
  cases hex : window_exists env name <;>
    cases hcr : env.createResult.success <;>
      cases hsel : env.selectOk <;>
        cases hidle : is_shell_idle env name <;>
          simp [hex, hcr, hsel, hidle]

/-- Inversion of a successful switch_to_window: the flag equals
"window existed and shell not idle", a detected running process means
only the select action was issued, and an idle successful switch ends
with the cd-then-clear keystrokes. -/
theorem switch_inv (env : TmuxEnv) (name dir : String)
    (res : Bool × Bool) (acts : List TmuxAction)
    (h : switch_to_window env name (some dir) = .ok (res, acts)) :
    res.2 = (window_exists env name && !is_shell_idle env name)
    ∧ (res.2 = true → acts = [.selectWindow name])
    ∧ (res.2 = false → res.1 = true →
        acts = (if window_exists env name then [TmuxAction.selectWindow name]
          else [.createWindow name (some dir),
                .sendKeys name ("cd \"" ++ dir ++ "\"") true,
                .selectWindow name])
          ++ [.sendKeys name ("cd \"" ++ dir ++ "\"") true,
              .sendKeys name "clear" true]) := by
  rw [switch_to_window_eq] at h
  cases hex : window_exists env name <;>
    cases hcr : env.createResult.success <;>
      cases hsel : env.selectOk <;>
        cases hidle : is_shell_idle env name <;>
          simp_all <;> obtain ⟨h1, h2⟩ := h <;> subst h1 <;> subst h2 <;>
            simp_all

/-- A pane hosts a running process exactly when is_shell_idle is false:
there is a pane command whose lowercased first line is not an idle
shell. -/
theorem running_cond_iff (env : TmuxEnv) (w : String) :
    (∃ cmd, get_pane_command env w = some cmd
      ∧ lowerString cmd ∉ IDLE_SHELLS)
      ↔ is_shell_idle env w = false := by
  unfold is_shell_idle
  cases hc : get_pane_command env w with
  | none => simp
  | some cmd => simp [hc]

/-- Claim C6: in switch_to_window with a working directory, the
has_running_process flag is true exactly when the window already
existed and its pane's current command (first line, compared
case-insensitively through lowercasing) is not in the idle-shell set;
when a running process was detected no keystrokes at all are sent, and
a successful idle switch ends with the cd line followed by clear. -/
theorem switch_to_window_idle_detection (env : TmuxEnv)
    (name dir : String) :
    (∀ res acts,
      switch_to_window env name (some dir) = .ok (res, acts) →
      (res.2 = true ↔ window_exists env name = true
        ∧ ∃ cmd, get_pane_command env name = some cmd
            ∧ lowerString cmd ∉ IDLE_SHELLS))
    ∧ (∀ res acts,
      switch_to_window env name (some dir) = .ok (res, acts) →
      res.2 = true → ∀ w k e, TmuxAction.sendKeys w k e ∉ acts)
    ∧ (∀ res acts,
      switch_to_window env name (some dir) = .ok (res, acts) →
      res.2 = false → res.1 = true →
      ∃ pre, acts = pre
        ++ [.sendKeys name ("cd \"" ++ dir ++ "\"") true,
            .sendKeys name "clear" true]) := by
  refine ⟨?_, ?_, ?_⟩
  · intro res acts h
    rw [(switch_inv env name dir res acts h).1]
    rw [Bool.and_eq_true, Bool.not_eq_true']
    exact and_congr_right fun _ => (running_cond_iff env name).symm
  · intro res acts h hr w k e
    have hacts := (switch_inv env name dir res acts h).2.1 hr
    rw [hacts]
    simp
  · intro res acts h hr hsw
    exact ⟨_, (switch_inv env name dir res acts h).2.2 hr hsw⟩

/-- Concrete tmux oracle for the witness: the window exists and its
pane runs an idle zsh. -/
def tmuxEnv0 : TmuxEnv :=
  ⟨["demo:login"], fun _ => ⟨"zsh\n", "", 0⟩, ⟨"", "", 0⟩, true⟩

/-- Witness for switch_to_window_idle_detection: switching to the
existing idle window reports no running process. -/
theorem switch_to_window_idle_detection_witness :
    ((true, false) : Bool × Bool).2 = true ↔
      (window_exists tmuxEnv0 "demo:login" = true
        ∧ ∃ cmd, get_pane_command tmuxEnv0 "demo:login" = some cmd
            ∧ lowerString cmd ∉ IDLE_SHELLS) :=
  (switch_to_window_idle_detection tmuxEnv0 "demo:login"
      "/b/worktrees/demo/login").1 (true, false)
    [.selectWindow "demo:login",
     .sendKeys "demo:login" "cd \"/b/worktrees/demo/login\"" true,
     .sendKeys "demo:login" "clear" true] rfl

end NomadFlow
